import Mathlib

/-!
Verification development for the redgifs client library.

The source files embedded here are src/redgifs/api.py (the blocking
Facade), src/redgifs/aio.py (the suspending Facade) and
src/redgifs/__main__.py (the command-line shell).  Supporting modules
(http.py, enums.py, utils.py, parser.py, models.py, errors.py) are not
part of the sources; where a definition below depends on one of them it
is modelled from the specification and its doc comment says so.

Python dictionaries holding decoded JSON are modelled by the `Json`
inductive; Python exceptions by the `PyErr` inductive; fallible code
returns `Except PyErr`.  The suspending variant's awaits are modelled as
direct calls: suspension has no observable effect on the values
computed, which is exactly the parity property under test.
-/

namespace Redgifs

/-- Json models a decoded JSON document as handled by the Python client:
null, booleans, numbers, strings, arrays and objects (ordered key/value
lists, as Python dicts preserve insertion order). -/
inductive Json where
  | null : Json
  | bool (b : Bool) : Json
  | num (n : Int) : Json
  | str (s : String) : Json
  | arr (xs : List Json) : Json
  | obj (kvs : List (String × Json)) : Json

/-- PyErr models the Python exceptions the embedded code can surface.
The missing-key failure of a dictionary subscript is modelled as
`parseError` carrying the missing field name.  Modelled from the spec:
the errors module is not in the sources; spec section 4.4 states a
missing required key fails with ParseError carrying the missing field,
and section 7 lists the error kinds. -/
inductive PyErr where
  | parseError (missingField : String) : PyErr
  | typeError (msg : String) : PyErr
  | indexError : PyErr
  | unboundLocalError (name : String) : PyErr
deriving DecidableEq

/-- Json.get models the Python subscript `json[key]`: on an object it
returns the value under the first matching key or fails with the
missing field name; on any non-object it fails with a TypeError, as
Python subscripting a non-dict does. -/
def Json.get (j : Json) (key : String) : Except PyErr Json :=
  match j with
  | .obj kvs =>
    match kvs.lookup key with
    | some v => .ok v
    | none => .error (.parseError key)
  | _ => .error (.typeError "value is not subscriptable")

/-- URL is the MediaURLSet value object from models.py (not in the
sources).  Modelled from the spec: the set of quality variants
(standard, high-definition, poster image, thumbnail, video-thumbnail,
canonical web page URL) for one media item; the constructor stores the
given values verbatim.  Fields other than the synthesized web URL hold
the raw JSON values the Facade passed in. -/
structure URL where
  sd : Json
  hd : Json
  poster : Json
  thumbnail : Json
  vthumbnail : Json
  web_url : Json

/-- GIF is the MediaItem entity from models.py (not in the sources).
Modelled from the spec: identifier, creation timestamp, flags,
dimensions, counters, duration, publication flag, tags, creator
username, content type, average color and the MediaURLSet; the
constructor stores the given values verbatim. -/
structure GIF where
  id : Json
  create_date : Json
  has_audio : Json
  width : Json
  height : Json
  likes : Json
  tags : Json
  verified : Json
  views : Json
  duration : Json
  published : Json
  urls : URL
  username : Json
  type : Json
  avg_color : Json

/-- to_web_url models `_to_web_url` from utils.py (not in the sources).
Modelled from the spec: the canonical web URL for a media item is
synthesized from the item identifier using a fixed URL template, not
pulled from the JSON payload.  On a string identifier it applies the
fixed template; the Python original would raise on a non-string
argument, modelled here by echoing the value (no claim exercises that
case). -/
def to_web_url : Json → Json
  | .str s => .str ("https://www.redgifs.com/watch/" ++ s)
  | j => j

/-- API.get_gif embeds the blocking Facade's get_gif
(src/redgifs/api.py lines 95-119), applied to the already-decoded
server response: it takes the `gif` object and reads each field in the
exact order the Python keyword arguments are evaluated, building the
GIF only after every read succeeded. -/
def API.get_gif (resp : Json) : Except PyErr GIF :=
  (resp.get "gif").bind fun json =>
  (json.get "id").bind fun id =>
  (json.get "createDate").bind fun create_date =>
  (json.get "hasAudio").bind fun has_audio =>
  (json.get "width").bind fun width =>
  (json.get "height").bind fun height =>
  (json.get "likes").bind fun likes =>
  (json.get "tags").bind fun tags =>
  (json.get "verified").bind fun verified =>
  (json.get "views").bind fun views =>
  (json.get "duration").bind fun duration =>
  (json.get "published").bind fun published =>
  (json.get "urls").bind fun urlsObj =>
  (urlsObj.get "sd").bind fun sd =>
  (urlsObj.get "hd").bind fun hd =>
  (urlsObj.get "poster").bind fun poster =>
  (urlsObj.get "thumbnail").bind fun thumbnail =>
  (urlsObj.get "vthumbnail").bind fun vthumbnail =>
  (json.get "id").bind fun idForWeb =>
  (json.get "userName").bind fun username =>
  (json.get "type").bind fun type =>
  (json.get "avgColor").bind fun avg_color =>
  .ok {
    id := id, create_date := create_date, has_audio := has_audio,
    width := width, height := height, likes := likes, tags := tags,
    verified := verified, views := views, duration := duration,
    published := published,
    urls := {
      sd := sd, hd := hd, poster := poster, thumbnail := thumbnail,
      vthumbnail := vthumbnail, web_url := to_web_url idForWeb },
    username := username, type := type, avg_color := avg_color }

/-- AioAPI.get_gif embeds the suspending Facade's get_gif
(src/redgifs/aio.py lines 57-81), applied to the already-decoded server
response; the await is modelled as a direct call, after which the body
is the same field-by-field construction as the blocking variant. -/
def AioAPI.get_gif (resp : Json) : Except PyErr GIF :=
  (resp.get "gif").bind fun json =>
  (json.get "id").bind fun id =>
  (json.get "createDate").bind fun create_date =>
  (json.get "hasAudio").bind fun has_audio =>
  (json.get "width").bind fun width =>
  (json.get "height").bind fun height =>
  (json.get "likes").bind fun likes =>
  (json.get "tags").bind fun tags =>
  (json.get "verified").bind fun verified =>
  (json.get "views").bind fun views =>
  (json.get "duration").bind fun duration =>
  (json.get "published").bind fun published =>
  (json.get "urls").bind fun urlsObj =>
  (urlsObj.get "sd").bind fun sd =>
  (urlsObj.get "hd").bind fun hd =>
  (urlsObj.get "poster").bind fun poster =>
  (urlsObj.get "thumbnail").bind fun thumbnail =>
  (urlsObj.get "vthumbnail").bind fun vthumbnail =>
  (json.get "id").bind fun idForWeb =>
  (json.get "userName").bind fun username =>
  (json.get "type").bind fun type =>
  (json.get "avgColor").bind fun avg_color =>
  .ok {
    id := id, create_date := create_date, has_audio := has_audio,
    width := width, height := height, likes := likes, tags := tags,
    verified := verified, views := views, duration := duration,
    published := published,
    urls := {
      sd := sd, hd := hd, poster := poster, thumbnail := thumbnail,
      vthumbnail := vthumbnail, web_url := to_web_url idForWeb },
    username := username, type := type, avg_color := avg_color }

/-- Order models the ordering selector from enums.py (not in the
sources).  Modelled from the spec: an ordering selector with at minimum
the recent and trending values. -/
inductive Order where
  | recent : Order
  | trending : Order
deriving DecidableEq

/-- Tags models one member of the enumerated tag vocabulary from
enums.py (not in the sources); its value is the canonical query token
of that member.  Modelled from the spec: a TagToken is one entry of the
fixed vocabulary with its canonical name. -/
structure Tags where
  value : String
deriving DecidableEq

/-- SearchValue models the runtime value a caller passes as
search_text: Python is dynamically typed, so besides a string or a Tags
member any other value can arrive; `other` stands for such a value. -/
inductive SearchValue where
  | str (s : String) : SearchValue
  | tag (t : Tags) : SearchValue
  | other : SearchValue

/-- bestMatch selects the vocabulary entry scoring highest against the
query under the given similarity scoring function, an earlier entry
winning ties.  Modelled from the spec: the Tag Resolver compares the
query against the fixed vocabulary with a best-match string-similarity
scoring function, selecting the single highest-scoring entry, ties
broken by vocabulary declaration order. -/
def bestMatch (score : String → String → Nat) (q : String) :
    List String → Option String
  | [] => none
  | t :: ts => some (ts.foldl (fun b u => if score q b < score q u then u else b) t)

/-- strLower lowercases a string through its character list, the
normalization step of the Tag Resolver. -/
def strLower (s : String) : String :=
  String.mk (s.data.map Char.toLower)

/-- Tags.search models the internal tag lookup `Tags.search` from
enums.py (not in the sources).  Modelled from the spec: it lowercases
the free-text query and returns the closest known tag tokens, best
match first; on an empty vocabulary there is no match and the list is
empty. -/
def Tags.search (score : String → String → Nat) (vocab : List String)
    (query : String) : List String :=
  match bestMatch score (strLower query) vocab with
  | none => []
  | some t => [t]

/-- SearchRequest is one outbound search request as handed to the
transport: the query token and the order, count and page parameters. -/
structure SearchRequest where
  st : String
  order : Order
  count : Int
  page : Int
deriving DecidableEq

/-- SearchResult is the SearchResultPage model from models.py (not in
the sources), reduced to what the embedded claims observe.  Modelled
from the spec: the resolved query token recorded with the page, and the
page payload. -/
structure SearchResult where
  searched : String
  raw : Json

/-- parse_search models parse_search from parser.py (not in the
sources).  Modelled from the spec: the Response Parser records the
resolved query token it was given in the result page together with the
contents parsed from the response. -/
def parse_search (st : String) (resp : Json) : SearchResult :=
  { searched := st, raw := resp }

/-- parse_search_image models parse_search_image from parser.py (not in
the sources), the image-search counterpart of parse_search. -/
def parse_search_image (st : String) (resp : Json) : SearchResult :=
  { searched := st, raw := resp }

/-- API.search embeds the blocking Facade's search (src/redgifs/api.py
lines 192-197).  The Tag Resolver's scoring function and vocabulary and
the transport (http.py, not in the sources) are explicit arguments; the
first component of the result lists the requests the call dispatched in
order, the second its outcome.  A string is resolved through
Tags.search and indexed at 0, raising IndexError when no tag matches; a
Tags member contributes its value; any other value leaves `st` unbound
so evaluating it for the dispatch raises UnboundLocalError before any
request is issued. -/
def API.search (score : String → String → Nat) (vocab : List String)
    (http_search : SearchRequest → Json) (search_text : SearchValue)
    (order : Order) (count : Int) (page : Int) :
    List SearchRequest × Except PyErr SearchResult :=
  match search_text with
  | .str s =>
    match Tags.search score vocab s with
    | [] => ([], .error .indexError)
    | st :: _ =>
      let req : SearchRequest := ⟨st, order, count, page⟩
      ([req], .ok (parse_search st (http_search req)))
  | .tag t =>
    let st := t.value
    let req : SearchRequest := ⟨st, order, count, page⟩
    ([req], .ok (parse_search st (http_search req)))
  | .other => ([], .error (.unboundLocalError "st"))

/-- AioAPI.search embeds the suspending Facade's search
(src/redgifs/aio.py lines 91-97), whose body is the same resolution and
dispatch as the blocking variant with the transport awaited. -/
def AioAPI.search (score : String → String → Nat) (vocab : List String)
    (http_search : SearchRequest → Json) (search_text : SearchValue)
    (order : Order) (count : Int) (page : Int) :
    List SearchRequest × Except PyErr SearchResult :=
  match search_text with
  | .str s =>
    match Tags.search score vocab s with
    | [] => ([], .error .indexError)
    | st :: _ =>
      let req : SearchRequest := ⟨st, order, count, page⟩
      ([req], .ok (parse_search st (http_search req)))
  | .tag t =>
    let st := t.value
    let req : SearchRequest := ⟨st, order, count, page⟩
    ([req], .ok (parse_search st (http_search req)))
  | .other => ([], .error (.unboundLocalError "st"))

/-- API.search_image embeds the blocking Facade's search_image
(src/redgifs/api.py lines 288-295).  The source deliberately does not
call Tags.search on a string: the comment there says the endpoint
provides images whatever the search_text is, so the string is
dispatched verbatim.  The resolver arguments are still in scope, as
they are for the Python method, but unused. -/
def API.search_image (score : String → String → Nat) (vocab : List String)
    (http_search_image : SearchRequest → Json) (search_text : SearchValue)
    (order : Order) (count : Int) (page : Int) :
    List SearchRequest × Except PyErr SearchResult :=
  match search_text with
  | .str s =>
    let req : SearchRequest := ⟨s, order, count, page⟩
    ([req], .ok (parse_search_image s (http_search_image req)))
  | .tag t =>
    let st := t.value
    let req : SearchRequest := ⟨st, order, count, page⟩
    ([req], .ok (parse_search_image st (http_search_image req)))
  | .other => ([], .error (.unboundLocalError "st"))

/-- AioAPI.search_image embeds the suspending Facade's search_image
(src/redgifs/aio.py lines 124-139), the same verbatim dispatch as the
blocking variant with the transport awaited. -/
def AioAPI.search_image (score : String → String → Nat) (vocab : List String)
    (http_search_image : SearchRequest → Json) (search_text : SearchValue)
    (order : Order) (count : Int) (page : Int) :
    List SearchRequest × Except PyErr SearchResult :=
  match search_text with
  | .str s =>
    let req : SearchRequest := ⟨s, order, count, page⟩
    ([req], .ok (parse_search_image s (http_search_image req)))
  | .tag t =>
    let st := t.value
    let req : SearchRequest := ⟨st, order, count, page⟩
    ([req], .ok (parse_search_image st (http_search_image req)))
  | .other => ([], .error (.unboundLocalError "st"))

/-- CreatorRequest is one outbound creator-search request as handed to
the transport. -/
structure CreatorRequest where
  username : String
  page : Int
  order : Order

/-- CreatorResult is the CreatorResult model from models.py (not in the
sources), reduced to the payload the embedded claims observe. -/
structure CreatorResult where
  raw : Json

/-- parse_creator models parse_creator from parser.py (not in the
sources).  Modelled from the spec: the Response Parser converts the
creator page payload into the typed creator model. -/
def parse_creator (resp : Json) : CreatorResult :=
  { raw := resp }

/-- API.search_creator embeds the blocking Facade's search_creator
(src/redgifs/api.py lines 239-258): one request through the transport,
parsed by parse_creator. -/
def API.search_creator (http_search_creator : CreatorRequest → Json)
    (username : String) (page : Int) (order : Order) : CreatorResult :=
  parse_creator (http_search_creator ⟨username, page, order⟩)

/-- AioAPI.search_creator embeds the suspending Facade's search_creator
(src/redgifs/aio.py lines 112-120). -/
def AioAPI.search_creator (http_search_creator : CreatorRequest → Json)
    (username : String) (page : Int) (order : Order) : CreatorResult :=
  parse_creator (http_search_creator ⟨username, page, order⟩)

/-- API.search_gif embeds the alias binding `search_gif = search` at
src/redgifs/api.py line 199: the alias denotes the very same function
object as search. -/
def API.search_gif := @API.search

/-- API.search_user embeds the alias binding `search_user =
search_creator` at src/redgifs/api.py line 260. -/
def API.search_user := @API.search_creator

/-- AioAPI.search_gif embeds the alias binding `search_gif = search` at
src/redgifs/aio.py line 99. -/
def AioAPI.search_gif := @AioAPI.search

/-- AioAPI.search_user embeds the alias binding `search_user =
search_creator` at src/redgifs/aio.py line 122. -/
def AioAPI.search_user := @AioAPI.search_creator

/-- Param models one parameter of a Python function signature after
self: its name, and whether the signature supplies a default so a
caller may omit it. -/
structure Param where
  name : String
  optional : Bool
deriving DecidableEq

/-- API.loginParams embeds the parameter list of the blocking Facade's
login (src/redgifs/api.py line 69): ip_address and user_agent are
required, username and password default to None. -/
def API.loginParams : List Param :=
  [⟨"ip_address", false⟩, ⟨"user_agent", false⟩,
   ⟨"username", true⟩, ⟨"password", true⟩]

/-- AioAPI.loginParams embeds the parameter list of the suspending
Facade's login (src/redgifs/aio.py line 49): username and password
default to None. -/
def AioAPI.loginParams : List Param :=
  [⟨"username", true⟩, ⟨"password", true⟩]

/-- callWithNoArgs models Python binding a call with zero arguments
against a signature: it succeeds exactly when every parameter has a
default, and otherwise raises a TypeError naming the first parameter
left unfilled. -/
def callWithNoArgs : List Param → Except PyErr Unit
  | [] => .ok ()
  | p :: ps =>
    if p.optional then callWithNoArgs ps
    else .error (.typeError ("missing required argument: " ++ p.name))

/-- GifsInfoCall records the observable behavior of one gifs_info
call: the response it printed and the value the call returned. -/
structure GifsInfoCall where
  printed : Json
  result : Option SearchResult

/-- API.gifs_info embeds the blocking Facade's gifs_info
(src/redgifs/api.py lines 201-206): it fetches the response through the
transport, prints it, and falls off the end of the function body, so
the call returns Python's None even though the annotation promises a
SearchResult. -/
def API.gifs_info (http_gifs_info : String → Json) (gifIds : String) :
    GifsInfoCall :=
  { printed := http_gifs_info gifIds, result := none }

/-- commonChars scores string similarity as the number of characters of
the first string that occur in the second, a concrete instance of the
best-match scoring function the spec leaves open. -/
def commonChars (q t : String) : Nat :=
  (q.data.filter (fun c => t.data.contains c)).length

/-- listStartsWith decides whether the first character list is an
initial segment of the second. -/
def listStartsWith : List Char → List Char → Bool
  | [], _ => true
  | _ :: _, [] => false
  | a :: as, b :: bs => a == b && listStartsWith as bs

/-- listOccurs decides whether the first character list occurs
contiguously anywhere in the second. -/
def listOccurs (needle : List Char) : List Char → Bool
  | [] => listStartsWith needle []
  | b :: bs => listStartsWith needle (b :: bs) || listOccurs needle bs

/-- strContains decides the Python `needle in hay` test on strings. -/
def strContains (hay needle : String) : Bool :=
  listOccurs needle.data hay.data

/-- dropSchemeAux drops everything through the first "://" of a URL,
returning none when the URL has no scheme separator. -/
def dropSchemeAux : List Char → Option (List Char)
  | [] => none
  | ':' :: '/' :: '/' :: rest => some rest
  | _ :: rest => dropSchemeAux rest

/-- splitHostPath splits the part of an absolute URL after the scheme
into the host and the path, the path keeping its leading slash and
defaulting to "/" as yarl does. -/
def splitHostPath : List Char → List Char × List Char
  | [] => ([], ['/'])
  | c :: rest =>
    if c == '/' then ([], '/' :: rest)
    else
      let (h, p) := splitHostPath rest
      (c :: h, p)

/-- urlHost models `str(yarl.URL(u).host)` for the absolute http(s)
URLs the downloader handles; a URL with no scheme has host None, whose
str() is the string "None". -/
def urlHost (u : String) : String :=
  match dropSchemeAux u.data with
  | some rest => String.mk (splitHostPath rest).fst
  | none => "None"

/-- urlPath models `yarl.URL(u).path` for the absolute http(s) URLs the
downloader handles; without a scheme the whole string is the path. -/
def urlPath (u : String) : String :=
  match dropSchemeAux u.data with
  | some rest => String.mk (splitHostPath rest).snd
  | none => u

/-- lastSeg models `path.split('/')[-1]`. -/
def lastSeg (s : String) : String :=
  (s.split (fun c => c == '/')).getLastD ""

/-- DlEnv abstracts the network side of the downloader: hdUrl stands
for `client.get_gif(id).urls.hd` followed by the streamed save, the
part of start_dl outside the control flow under test. -/
structure DlEnv where
  hdUrl : String → Except PyErr String

/-- start_dl embeds the downloader entry of the command-line shell
(src/redgifs/__main__.py lines 73-83): a URL whose host does not
contain "redgifs" raises TypeError; a watch URL fetches the GIF id
taken from the last path segment and saves it; any other redgifs URL
falls through doing nothing. -/
def start_dl (env : DlEnv) (url : String) : Except PyErr Unit :=
  if !(strContains (urlHost url) "redgifs") then
    .error (.typeError ("\"" ++ url ++ "\" is an invalid redgifs URL"))
  else if strContains (urlPath url) "watch" then
    (env.hdUrl (lastSeg (urlPath url))).bind fun _ => .ok ()
  else .ok ()

/-- run_list embeds the batch branch of main (src/redgifs/__main__.py
lines 93-96): start_dl is applied to each line of the URL file in turn
inside a plain for loop with no exception handling, so the first
failure propagates out of the loop.  The first component records the
lines actually attempted, in order; the second the outcome. -/
def run_list (env : DlEnv) : List String → List String × Except PyErr Unit
  | [] => ([], .ok ())
  | url :: rest =>
    match start_dl env url with
    | .error e => ([url], .error e)
    | .ok _ =>
      let (att, r) := run_list env rest
      (url :: att, r)

end Redgifs

namespace Redgifs

/-- bindOk reduces an Except bind on a successful value. -/
theorem bindOk {e a b : Type} (x : a) (f : a → Except e b) :
    (Except.ok x : Except e a).bind f = f x := rfl

/-- bindErr reduces an Except bind on a failed value. -/
theorem bindErr {e a b : Type} (err : e) (f : a → Except e b) :
    (Except.error err : Except e a).bind f = Except.error err := rfl

/-- get_step reduces a bind whose head reads a key that is present in
the object. -/
theorem get_step {b : Type} (kvs : List (String × Json)) (k : String)
    (v : Json) (h : kvs.lookup k = some v) (f : Json → Except PyErr b) :
    ((Json.obj kvs).get k).bind f = f v := by
  simp only [Json.get, h]
  rfl

/-- get_step_none reduces a bind whose head reads a key that is absent
from the object: the whole chain collapses to the ParseError naming
that key. -/
theorem get_step_none {b : Type} (kvs : List (String × Json)) (k : String)
    (h : kvs.lookup k = none) (f : Json → Except PyErr b) :
    ((Json.obj kvs).get k).bind f = .error (.parseError k) := by
  simp only [Json.get, h]
  rfl

/-- C1: for every server JSON response, the blocking Facade's get_gif
and the suspending Facade's get_gif construct the same value: when one
succeeds the other succeeds with a structurally equal GIF, every field
including the nested MediaURLSet agreeing, and when one fails the other
fails identically. -/
theorem get_gif_blocking_suspending_parity (resp : Json) :
    API.get_gif resp = AioAPI.get_gif resp := rfl

/-- C2: for every single-item JSON document whose gif object lacks the
urls key (all fields read before it being present), get_gif fails with
a ParseError carrying the missing field name, and no partially
populated MediaItem is constructed: the result is the error, not an ok
value. -/
theorem get_gif_missing_urls_fails
    (resp : Json) (kvs : List (String × Json))
    (v1 v2 v3 v4 v5 v6 v7 v8 v9 v10 v11 : Json)
    (hg : resp.get "gif" = .ok (.obj kvs))
    (h1 : kvs.lookup "id" = some v1)
    (h2 : kvs.lookup "createDate" = some v2)
    (h3 : kvs.lookup "hasAudio" = some v3)
    (h4 : kvs.lookup "width" = some v4)
    (h5 : kvs.lookup "height" = some v5)
    (h6 : kvs.lookup "likes" = some v6)
    (h7 : kvs.lookup "tags" = some v7)
    (h8 : kvs.lookup "verified" = some v8)
    (h9 : kvs.lookup "views" = some v9)
    (h10 : kvs.lookup "duration" = some v10)
    (h11 : kvs.lookup "published" = some v11)
    (hu : kvs.lookup "urls" = none) :
    API.get_gif resp = .error (.parseError "urls") := by
  unfold API.get_gif
  rw [hg, bindOk, get_step _ _ _ h1, get_step _ _ _ h2, get_step _ _ _ h3,
    get_step _ _ _ h4, get_step _ _ _ h5, get_step _ _ _ h6,
    get_step _ _ _ h7, get_step _ _ _ h8, get_step _ _ _ h9,
    get_step _ _ _ h10, get_step _ _ _ h11, get_step_none _ _ hu]

/-- C2 witness: a concrete single-item document carrying every field of
the gif object except urls makes get_gif fail with ParseError "urls". -/
theorem get_gif_missing_urls_fails_witness :
    API.get_gif (.obj [("gif", .obj
      [("id", .str "abc123"), ("createDate", .num 1), ("hasAudio", .bool true),
       ("width", .num 640), ("height", .num 360), ("likes", .num 5),
       ("tags", .arr []), ("verified", .bool false), ("views", .num 9),
       ("duration", .num 10), ("published", .bool true),
       ("userName", .str "u"), ("type", .num 1),
       ("avgColor", .str "#000000")])]) = .error (.parseError "urls") :=
  get_gif_missing_urls_fails _ _
    (.str "abc123") (.num 1) (.bool true) (.num 640) (.num 360) (.num 5)
    (.arr []) (.bool false) (.num 9) (.num 10) (.bool true)
    (by rfl) (by rfl) (by rfl) (by rfl) (by rfl) (by rfl) (by rfl)
    (by rfl) (by rfl) (by rfl) (by rfl) (by rfl) (by rfl)

/-- C3: for every well-formed single-item JSON document, the MediaItem
returned by get_gif carries a web URL equal to the fixed template
applied to the item's string identifier — not a value read from the
JSON payload — while the sd, hd, poster, thumbnail and vthumbnail
fields of its MediaURLSet equal the corresponding values of the JSON
urls object verbatim. -/
theorem get_gif_web_url_derived
    (resp : Json) (kvs ukvs : List (String × Json)) (idStr : String)
    (v2 v3 v4 v5 v6 v7 v8 v9 v10 v11 u1 u2 u3 u4 u5 w1 w2 w3 : Json)
    (hg : resp.get "gif" = .ok (.obj kvs))
    (h1 : kvs.lookup "id" = some (.str idStr))
    (h2 : kvs.lookup "createDate" = some v2)
    (h3 : kvs.lookup "hasAudio" = some v3)
    (h4 : kvs.lookup "width" = some v4)
    (h5 : kvs.lookup "height" = some v5)
    (h6 : kvs.lookup "likes" = some v6)
    (h7 : kvs.lookup "tags" = some v7)
    (h8 : kvs.lookup "verified" = some v8)
    (h9 : kvs.lookup "views" = some v9)
    (h10 : kvs.lookup "duration" = some v10)
    (h11 : kvs.lookup "published" = some v11)
    (hu : kvs.lookup "urls" = some (.obj ukvs))
    (hu1 : ukvs.lookup "sd" = some u1)
    (hu2 : ukvs.lookup "hd" = some u2)
    (hu3 : ukvs.lookup "poster" = some u3)
    (hu4 : ukvs.lookup "thumbnail" = some u4)
    (hu5 : ukvs.lookup "vthumbnail" = some u5)
    (h12 : kvs.lookup "userName" = some w1)
    (h13 : kvs.lookup "type" = some w2)
    (h14 : kvs.lookup "avgColor" = some w3) :
    API.get_gif resp = .ok {
      id := .str idStr, create_date := v2, has_audio := v3,
      width := v4, height := v5, likes := v6, tags := v7,
      verified := v8, views := v9, duration := v10, published := v11,
      urls := {
        sd := u1, hd := u2, poster := u3, thumbnail := u4,
        vthumbnail := u5,
        web_url := .str ("https://www.redgifs.com/watch/" ++ idStr) },
      username := w1, type := w2, avg_color := w3 } := by
  unfold API.get_gif
  rw [hg, bindOk, get_step _ _ _ h1, get_step _ _ _ h2, get_step _ _ _ h3,
    get_step _ _ _ h4, get_step _ _ _ h5, get_step _ _ _ h6,
    get_step _ _ _ h7, get_step _ _ _ h8, get_step _ _ _ h9,
    get_step _ _ _ h10, get_step _ _ _ h11, get_step _ _ _ hu,
    get_step _ _ _ hu1, get_step _ _ _ hu2, get_step _ _ _ hu3,
    get_step _ _ _ hu4, get_step _ _ _ hu5, get_step _ _ _ h1,
    get_step _ _ _ h12, get_step _ _ _ h13, get_step _ _ _ h14]
  rfl

/-- C3 witness: a concrete well-formed document with identifier
"abc123" yields a MediaItem whose web URL is the fixed template applied
to "abc123" and whose MediaURLSet fields repeat the JSON urls values. -/
theorem get_gif_web_url_derived_witness :
    API.get_gif (.obj [("gif", .obj
      [("id", .str "abc123"), ("createDate", .num 1), ("hasAudio", .bool true),
       ("width", .num 640), ("height", .num 360), ("likes", .num 5),
       ("tags", .arr []), ("verified", .bool false), ("views", .num 9),
       ("duration", .num 10), ("published", .bool true),
       ("urls", .obj
         [("sd", .str "s.mp4"), ("hd", .str "h.mp4"),
          ("poster", .str "p.jpg"), ("thumbnail", .str "t.jpg"),
          ("vthumbnail", .str "v.mp4"),
          ("web_url", .str "https://attacker.example/abc123")]),
       ("userName", .str "u"), ("type", .num 1),
       ("avgColor", .str "#000000")])]) = .ok {
      id := .str "abc123", create_date := .num 1, has_audio := .bool true,
      width := .num 640, height := .num 360, likes := .num 5,
      tags := .arr [], verified := .bool false, views := .num 9,
      duration := .num 10, published := .bool true,
      urls := {
        sd := .str "s.mp4", hd := .str "h.mp4", poster := .str "p.jpg",
        thumbnail := .str "t.jpg", vthumbnail := .str "v.mp4",
        web_url := .str ("https://www.redgifs.com/watch/" ++ "abc123") },
      username := .str "u", type := .num 1,
      avg_color := .str "#000000" } :=
  get_gif_web_url_derived _ _ _ "abc123"
    (.num 1) (.bool true) (.num 640) (.num 360) (.num 5) (.arr [])
    (.bool false) (.num 9) (.num 10) (.bool true)
    (.str "s.mp4") (.str "h.mp4") (.str "p.jpg") (.str "t.jpg")
    (.str "v.mp4") (.str "u") (.num 1) (.str "#000000")
    (by rfl) (by rfl) (by rfl) (by rfl) (by rfl) (by rfl) (by rfl)
    (by rfl) (by rfl) (by rfl) (by rfl) (by rfl) (by rfl) (by rfl)
    (by rfl) (by rfl) (by rfl) (by rfl) (by rfl) (by rfl) (by rfl)


/-- C4: for every already-known enumerated tag value passed as the
search query, search uses that tag's value verbatim as the query token
of the dispatched request and as the resolved token recorded in the
result page, in both Facade variants; no fuzzy matching is performed:
the outcome is the same under any scoring function and vocabulary. -/
theorem search_tag_uses_value_verbatim
    (score score2 : String → String → Nat) (vocab vocab2 : List String)
    (hs : SearchRequest → Json) (t : Tags) (o : Order) (c p : Int) :
    API.search score vocab hs (.tag t) o c p
      = ([⟨t.value, o, c, p⟩], .ok (parse_search t.value (hs ⟨t.value, o, c, p⟩)))
    ∧ API.search score vocab hs (.tag t) o c p
      = API.search score2 vocab2 hs (.tag t) o c p
    ∧ AioAPI.search score vocab hs (.tag t) o c p
      = ([⟨t.value, o, c, p⟩], .ok (parse_search t.value (hs ⟨t.value, o, c, p⟩)))
    ∧ AioAPI.search score vocab hs (.tag t) o c p
      = AioAPI.search score2 vocab2 hs (.tag t) o c p :=
  ⟨rfl, rfl, rfl, rfl⟩

/-- C5 counterexample: with the vocabulary ["dig", "cat"] and the
common-character similarity score, the Tag Resolver maps the free text
"dog" to the closest known tag "dig", yet search_image dispatches the
request with the token "dog" itself: the free-text query of
search_image is not mapped through the Tag Resolver before dispatch. -/
theorem search_image_bypasses_resolver_counterexample :
    (API.search_image commonChars ["dig", "cat"] (fun _ => Json.null)
        (.str "dog") .trending 80 1).fst
      = [⟨"dog", .trending, 80, 1⟩]
    ∧ Tags.search commonChars ["dig", "cat"] "dog" = ["dig"]
    ∧ ("dog" : String) ≠ "dig" :=
  ⟨rfl, by decide, by decide⟩

/-- C5 amended: a free-text query passed to search is first mapped
through the Tag Resolver to the closest known tag token before the
request is dispatched, in both variants; search_image instead
dispatches the free-text string verbatim, performing no resolution. -/
theorem search_resolves_search_image_verbatim
    (score : String → String → Nat) (vocab : List String)
    (hs hi : SearchRequest → Json) (s st : String) (rest : List String)
    (o : Order) (c p : Int)
    (hres : Tags.search score vocab s = st :: rest) :
    API.search score vocab hs (.str s) o c p
      = ([⟨st, o, c, p⟩], .ok (parse_search st (hs ⟨st, o, c, p⟩)))
    ∧ API.search_image score vocab hi (.str s) o c p
      = ([⟨s, o, c, p⟩], .ok (parse_search_image s (hi ⟨s, o, c, p⟩)))
    ∧ AioAPI.search score vocab hs (.str s) o c p
      = ([⟨st, o, c, p⟩], .ok (parse_search st (hs ⟨st, o, c, p⟩)))
    ∧ AioAPI.search_image score vocab hi (.str s) o c p
      = ([⟨s, o, c, p⟩], .ok (parse_search_image s (hi ⟨s, o, c, p⟩))) := by
  refine ⟨?_, rfl, ?_, rfl⟩ <;> simp [API.search, AioAPI.search, hres]

/-- C5 amended witness: at the query "dog" over the vocabulary
["dig", "cat"] the resolver yields "dig"; search dispatches "dig" while
search_image dispatches "dog". -/
theorem search_resolves_search_image_verbatim_witness :
    Tags.search commonChars ["dig", "cat"] "dog" = "dig" :: []
    ∧ (API.search commonChars ["dig", "cat"] (fun _ => Json.null)
          (.str "dog") .recent 80 1
        = ([⟨"dig", .recent, 80, 1⟩], .ok (parse_search "dig" Json.null))
      ∧ API.search_image commonChars ["dig", "cat"] (fun _ => Json.null)
          (.str "dog") .recent 80 1
        = ([⟨"dog", .recent, 80, 1⟩], .ok (parse_search_image "dog" Json.null))
      ∧ AioAPI.search commonChars ["dig", "cat"] (fun _ => Json.null)
          (.str "dog") .recent 80 1
        = ([⟨"dig", .recent, 80, 1⟩], .ok (parse_search "dig" Json.null))
      ∧ AioAPI.search_image commonChars ["dig", "cat"] (fun _ => Json.null)
          (.str "dog") .recent 80 1
        = ([⟨"dog", .recent, 80, 1⟩], .ok (parse_search_image "dog" Json.null))) :=
  ⟨by decide,
   search_resolves_search_image_verbatim commonChars ["dig", "cat"]
     (fun _ => Json.null) (fun _ => Json.null) "dog" "dig" [] .recent 80 1
     (by decide)⟩

/-- C6: the suspending Facade's login takes only the optional username
and password, so a zero-argument call binds; the blocking Facade's
login instead requires ip_address and user_agent, so the same
zero-argument call — the one src/redgifs/__main__.py line 44 makes —
raises TypeError, and the two parameter contracts differ. -/
theorem login_zero_argument_call :
    callWithNoArgs AioAPI.loginParams = .ok ()
    ∧ callWithNoArgs API.loginParams
      = .error (.typeError "missing required argument: ip_address")
    ∧ API.loginParams ≠ AioAPI.loginParams :=
  ⟨rfl, rfl, by decide⟩

/-- C7: the aliased Facade names denote exactly the operations of their
canonical names: on any arguments search_gif returns what search
returns and search_user what search_creator returns, in both the
blocking and the suspending variant. -/
theorem aliases_denote_same_operation
    (score : String → String → Nat) (vocab : List String)
    (hs : SearchRequest → Json) (txt : SearchValue) (o : Order) (c p : Int)
    (hc : CreatorRequest → Json) (u : String) (pg : Int) (od : Order) :
    API.search_gif score vocab hs txt o c p
      = API.search score vocab hs txt o c p
    ∧ API.search_user hc u pg od = API.search_creator hc u pg od
    ∧ AioAPI.search_gif score vocab hs txt o c p
      = AioAPI.search score vocab hs txt o c p
    ∧ AioAPI.search_user hc u pg od = AioAPI.search_creator hc u pg od :=
  ⟨rfl, rfl, rfl, rfl⟩

/-- C8 counterexample: in a two-line batch whose first line fails the
host check, the loop ends with that failure and the second line is
never attempted, contradicting the claim that every line after a
failing one is still attempted. -/
theorem batch_failure_aborts_counterexample :
    run_list ⟨fun _ => .ok "m"⟩
        ["https://example.com/watch/a", "https://www.redgifs.com/watch/b"]
      = (["https://example.com/watch/a"],
         .error (.typeError
           "\"https://example.com/watch/a\" is an invalid redgifs URL"))
    ∧ "https://www.redgifs.com/watch/b" ∉
        (run_list ⟨fun _ => .ok "m"⟩
          ["https://example.com/watch/a",
           "https://www.redgifs.com/watch/b"]).fst := by
  refine ⟨rfl, ?_⟩
  intro hmem
  rw [show (run_list (⟨fun _ => .ok "m"⟩ : DlEnv)
      ["https://example.com/watch/a",
       "https://www.redgifs.com/watch/b"]).fst
    = ["https://example.com/watch/a"] from rfl] at hmem
  simp at hmem

/-- C8 amended: a failure while processing one URL line aborts the
remaining lines: when every line before the failing one succeeds, the
attempted lines are exactly those up to and including the first failing
line, whatever follows it. -/
theorem run_list_stops_at_first_failure
    (env : DlEnv) (u : String) (e : PyErr) (rest pre : List String)
    (hu : start_dl env u = .error e)
    (hpre : ∀ x ∈ pre, start_dl env x = .ok ()) :
    run_list env (pre ++ u :: rest) = (pre ++ [u], .error e) := by
  induction pre with
  | nil => simp [run_list, hu]
  | cons a as ih =>
    have ha : start_dl env a = .ok () := hpre a (by simp)
    have hrec := ih (fun x hx => hpre x (by simp [hx]))
    simp [run_list, ha, hrec]

/-- C8 amended witness: a three-line batch in which the second line
fails attempts the first two lines only; the third is never
attempted. -/
theorem run_list_stops_at_first_failure_witness :
    start_dl ⟨fun _ => .ok "m"⟩ "https://example.com/watch/a"
      = .error (.typeError
          "\"https://example.com/watch/a\" is an invalid redgifs URL")
    ∧ run_list ⟨fun _ => .ok "m"⟩
        (["https://www.redgifs.com/watch/b"] ++
          "https://example.com/watch/a" :: ["https://www.redgifs.com/watch/c"])
      = (["https://www.redgifs.com/watch/b"] ++ ["https://example.com/watch/a"],
         .error (.typeError
           "\"https://example.com/watch/a\" is an invalid redgifs URL")) :=
  ⟨rfl,
   run_list_stops_at_first_failure ⟨fun _ => .ok "m"⟩
     "https://example.com/watch/a"
     (.typeError "\"https://example.com/watch/a\" is an invalid redgifs URL")
     ["https://www.redgifs.com/watch/c"]
     ["https://www.redgifs.com/watch/b"]
     rfl
     (by intro x hx
         rw [List.mem_singleton] at hx
         subst hx
         rfl)⟩

/-- C9: for every transport and input string, the blocking Facade's
gifs_info prints the raw response and returns None: no typed
SearchResult is ever constructed despite the annotated return type. -/
theorem gifs_info_returns_none (h : String → Json) (gifIds : String) :
    API.gifs_info h gifIds = { printed := h gifIds, result := none } := rfl

/-- C10: a search_text that is neither a string nor a Tags value makes
search and search_image fail with UnboundLocalError before any request
is dispatched — the request trace is empty — in both variants, while
for a string or a Tags value that failure never occurs. -/
theorem search_other_type_no_request
    (score : String → String → Nat) (vocab : List String)
    (hs hi : SearchRequest → Json) (o : Order) (c p : Int) :
    API.search score vocab hs .other o c p
      = ([], .error (.unboundLocalError "st"))
    ∧ API.search_image score vocab hi .other o c p
      = ([], .error (.unboundLocalError "st"))
    ∧ AioAPI.search score vocab hs .other o c p
      = ([], .error (.unboundLocalError "st"))
    ∧ AioAPI.search_image score vocab hi .other o c p
      = ([], .error (.unboundLocalError "st"))
    ∧ (∀ s : String, (API.search score vocab hs (.str s) o c p).snd
        ≠ .error (.unboundLocalError "st"))
    ∧ (∀ t : Tags, (API.search score vocab hs (.tag t) o c p).snd
        ≠ .error (.unboundLocalError "st"))
    ∧ (∀ s : String, (API.search_image score vocab hi (.str s) o c p).snd
        ≠ .error (.unboundLocalError "st"))
    ∧ (∀ t : Tags, (API.search_image score vocab hi (.tag t) o c p).snd
        ≠ .error (.unboundLocalError "st"))
    ∧ (∀ s : String, (AioAPI.search score vocab hs (.str s) o c p).snd
        ≠ .error (.unboundLocalError "st"))
    ∧ (∀ t : Tags, (AioAPI.search score vocab hs (.tag t) o c p).snd
        ≠ .error (.unboundLocalError "st")) := by
  refine ⟨rfl, rfl, rfl, rfl, ?_, ?_, ?_, ?_, ?_, ?_⟩
  · intro s
    cases hx : Tags.search score vocab s with
    | nil => simp [API.search, hx]
    | cons a l => simp [API.search, hx]
  · intro t
    simp [API.search]
  · intro s
    simp [API.search_image]
  · intro t
    simp [API.search_image]
  · intro s
    cases hx : Tags.search score vocab s with
    | nil => simp [AioAPI.search, hx]
    | cons a l => simp [AioAPI.search, hx]
  · intro t
    simp [AioAPI.search]

/-- C10 witness: at a concrete resolver, transport and parameters the
other-typed search_text yields the UnboundLocalError with an empty
request trace. -/
theorem search_other_type_no_request_witness :
    API.search commonChars ["dig"] (fun _ => Json.null) .other .recent 80 1
      = ([], .error (.unboundLocalError "st")) :=
  (search_other_type_no_request commonChars ["dig"]
    (fun _ => Json.null) (fun _ => Json.null) .recent 80 1).1

end Redgifs
